import Mathlib

/-!
Verification of the AI-Medical-Scheduler intake and booking pipeline.

This file gives a shallow embedding, in Lean 4, of the core logic of the
repository (agents under `src/agents` and the pydantic models under
`src/models`), and proves or refutes the frozen specification claims about
it.

Modelling conventions, shared by all definitions below:

* Python strings become Lean `String`s; character-level operations
  (`strip`, `lower`, `isdigit`, `isalnum`, `title`, `replace`) are embedded
  over ASCII, which covers every value the program manipulates.
* A pandas `DataFrame` becomes a `List` of row structures carrying exactly
  the columns the embedded code reads or writes; boolean masks followed by
  `.loc` assignments become `List.map` with a conditional update, and
  `mask.any()` becomes `List.any`.
* Schedule dates (`'YYYY-MM-DD'` strings) are embedded as a `Nat` absolute
  day number and times (`'HH:MM'` strings) as minutes since midnight
  (`0 ≤ t < 1440`).  The string forms are in order- and difference-
  preserving bijection with these numbers, string equality of two dates or
  times is equality of the numbers, and `pd.to_datetime(date + ' ' + time)`
  is `day * 1440 + minutes`.  The `strftime('%H:%M')` of a time object
  reduces the underlying minute count modulo `1440` (a `datetime.time`
  carries no day), which is where the midnight wrap-around modelled below
  comes from.
* Excel/CSV persistence (`to_excel`, `to_csv`, `read_csv`) is the identity
  on the in-memory table: the model tracks the table state itself and the
  on-disk copy is assumed in sync (single-process operation, which is the
  repository's own stated scope).  I/O exceptions are not modelled.
* `datetime.now()` / `date.today()` are passed in explicitly as a `today`
  or `now` parameter.
-/

deriving instance DecidableEq for Except

/-! ## Python string primitives

All primitives recurse structurally over `String.data`, so that every
definition in the file evaluates inside the kernel (`decide`/`rfl`) on
concrete inputs. -/

/-- Python `str.strip()` (ASCII whitespace trim at both ends), as used all
over the agents: drop leading and trailing `Char.isWhitespace`
characters. -/
def pyStrip (s : String) : String :=
  String.mk
    (((s.data.dropWhile Char.isWhitespace).reverse.dropWhile Char.isWhitespace).reverse)

/-- Python `str.lower()` over ASCII. -/
def pyLower (s : String) : String := String.mk (s.data.map Char.toLower)

/-- Python `c in s` for a single character. -/
def pyContainsChar (s : String) (c : Char) : Bool := s.data.any (fun x => x == c)

/-- Python `s.startswith(pre)`. -/
def pyStartsWith (s pre : String) : Bool := pre.data.isPrefixOf s.data

/-- Helper for `pySplitChar`: accumulate the current piece (reversed) while
walking the characters. -/
def splitCharAux (sep : Char) : List Char → List Char → List String
  | [], acc => [String.mk acc.reverse]
  | x :: xs, acc =>
    if x == sep then String.mk acc.reverse :: splitCharAux sep xs []
    else splitCharAux sep xs (x :: acc)

/-- Python `s.split(sep)` for a one-character separator (the only kind the
program uses): empty pieces are kept, and the empty string splits to
`[""]`. -/
def pySplitChar (sep : Char) (s : String) : List String :=
  splitCharAux sep s.data []

/-- Helper for `pySplitWs`: split at every character satisfying `p`. -/
def splitPredAux (p : Char → Bool) : List Char → List Char → List String
  | [], acc => [String.mk acc.reverse]
  | x :: xs, acc =>
    if p x then String.mk acc.reverse :: splitPredAux p xs []
    else splitPredAux p xs (x :: acc)

/-- Python `sep.join(parts)`. -/
def pyJoin (sep : String) : List String → String
  | [] => ""
  | [x] => x
  | x :: xs => x ++ sep ++ pyJoin sep xs

/-- Python `str.isdigit()`: nonempty and all digits. -/
def pyIsDigit (s : String) : Bool := !s.data.isEmpty && s.data.all Char.isDigit

/-- Python `str.isalnum()`: nonempty and all alphanumeric. -/
def pyIsAlnum (s : String) : Bool := !s.data.isEmpty && s.data.all Char.isAlphanum

/-- Python `str.zfill(w)` for the nonnegative numerals used here: left-pad
with `'0'` up to width `w`. -/
def pyZfill (w : Nat) (s : String) : String :=
  String.mk (List.replicate (w - s.length) '0') ++ s

/-- Python `f"{n:02d}"` / `f"{n:03d}"`-style zero-padded rendering of a
nonnegative integer. -/
def padNum (w : Nat) (n : Nat) : String := pyZfill w (Nat.repr n)

/-- Python `int(s)` on an all-digit string. -/
def pyParseNat (s : String) : Nat :=
  s.data.foldl (fun a c => a * 10 + (c.toNat - 48)) 0

/-- Python `needle in hay` substring containment. -/
def pyContains (hay needle : String) : Bool :=
  hay.data.tails.any (fun t => needle.data.isPrefixOf t)

/-- Python `s.replace(' ', '').replace('-', '')`, the space/hyphen
stripping used by the insurance validators. -/
def stripSpacesHyphens (s : String) : String :=
  String.mk (s.data.filter (fun c => c ≠ ' ' && c ≠ '-'))

/-- Python `str.split()` with no argument: split on whitespace runs,
discarding empty pieces. -/
def pySplitWs (s : String) : List String :=
  (splitPredAux Char.isWhitespace s.data []).filter (fun p => p ≠ "")

/-- Python `str.title()` over ASCII: a letter is uppercased when the
previous character is not a letter, lowercased otherwise. -/
def pyTitle (s : String) : String :=
  (s.data.foldl
    (fun (acc : List Char × Bool) c =>
      if c.isAlpha then
        (acc.1 ++ [if acc.2 then c.toLower else c.toUpper], true)
      else
        (acc.1 ++ [c], false))
    ([], false)).1 |> String.mk

/-! ## Calendar arithmetic (Python `datetime.date`) -/

/-- Gregorian leap year, as `datetime.date` uses. -/
def isLeapYear (y : Nat) : Bool :=
  y % 4 == 0 && (y % 100 != 0 || y % 400 == 0)

/-- Days in a month of a given year. -/
def daysInMonth (y m : Nat) : Nat :=
  if m == 2 then (if isLeapYear y then 29 else 28)
  else if m == 4 || m == 6 || m == 9 || m == 11 then 30
  else 31

/-- Python `datetime.date(y, m, d)` succeeds exactly on these triples
(year 1..9999, month 1..12, day within the month). -/
def pyDateValid (y m d : Nat) : Bool :=
  1 ≤ y && y ≤ 9999 && 1 ≤ m && m ≤ 12 && 1 ≤ d && d ≤ daysInMonth y m

/-- A calendar date `(year, month, day)`, standing for a Python
`datetime.date`. -/
structure Ymd where
  year : Nat
  month : Nat
  day : Nat
deriving DecidableEq, Repr

/-- Python `date` comparison `a < b` (lexicographic on (year, month, day)). -/
def ymdLt (a b : Ymd) : Bool :=
  a.year < b.year ||
    (a.year == b.year &&
      (a.month < b.month || (a.month == b.month && a.day < b.day)))

/-! ## Schedule model (`src/agents/scheduling_agent.py`)

A row of `doctors_schedule.xlsx` as the scheduling agent reads and writes
it: columns `doctor`, `location`, `date`, `time`, `available`,
`duration_available`, `status`. -/

structure ScheduleRow where
  doctor : String
  location : String
  /-- absolute day number standing for the `'YYYY-MM-DD'` date string -/
  date : Nat
  /-- minutes since midnight standing for the `'HH:MM'` time string -/
  time : Nat
  available : Bool
  duration_available : Nat
  status : String
deriving DecidableEq, Repr

/-- An `AppointmentSlot` (pydantic model in
`src/models/appointment_models.py`): the fields carried from a schedule
row into booking. -/
structure AppointmentSlot where
  doctor : String
  location : String
  date : Nat
  time : Nat
  duration_available : Nat
deriving DecidableEq, Repr

/-- `pd.to_datetime(row['date'] + ' ' + row['time'])`, in minutes. -/
def rowMinutes (r : ScheduleRow) : Nat := r.date * 1440 + r.time

/-- The boolean row mask used throughout `scheduling_agent.py`: same
doctor, location, date, and the given time. -/
def slotMask (doctor location : String) (date t : Nat) (r : ScheduleRow) : Bool :=
  r.doctor == doctor && r.location == location && r.date == date && r.time == t

/-- The `.loc[mask, ...] = ...` update of `update_doctor_schedule`: mark a
row fully booked. -/
def markBooked (st : String) (r : ScheduleRow) : ScheduleRow :=
  { r with available := false, duration_available := 0, status := st }

/-- `SchedulingAgent._find_consecutive_slots`: filter the available
30-minute rows for the doctor and location, sort chronologically
(`sort_values('datetime')`, embedded as an insertion sort — pandas'
default quicksort is likewise an unstable sorted permutation), and return
the first slot of every adjacent pair of rows whose datetimes are exactly
30 minutes (1800 seconds) apart. -/
def findConsecutiveSlots (tbl : List ScheduleRow) (doctor location : String) :
    List ScheduleRow :=
  let doctorSlots := tbl.filter (fun r =>
    r.doctor == doctor && r.location == location && r.available &&
      30 ≤ r.duration_available)
  let sorted := doctorSlots.insertionSort (fun a b => rowMinutes a ≤ rowMinutes b)
  (sorted.zip sorted.tail).filterMap (fun p =>
    if (rowMinutes p.2 : Int) - (rowMinutes p.1 : Int) == 30 then some p.1 else none)

/-- `SchedulingAgent.update_doctor_schedule`: mark the booked slot(s)
unavailable.  For `patient_type == "new"` both the selected time and the
time 30 minutes later are masked (the later time comes from a
`datetime.time` and therefore wraps modulo 24 hours); any other patient
type marks only the selected time.  The Excel write-back is the identity
in this model and the function always reports success. -/
def updateDoctorSchedule (slot : AppointmentSlot) (patientType : String)
    (tbl : List ScheduleRow) : List ScheduleRow :=
  if patientType == "new" then
    let nextTime := (slot.time + 30) % 1440
    let t1 := tbl.map (fun r =>
      if slotMask slot.doctor slot.location slot.date slot.time r then
        markBooked "Fully Booked (New Patient)" r else r)
    t1.map (fun r =>
      if slotMask slot.doctor slot.location slot.date nextTime r then
        markBooked "Fully Booked (New Patient)" r else r)
  else
    tbl.map (fun r =>
      if slotMask slot.doctor slot.location slot.date slot.time r then
        markBooked "Fully Booked (Returning Patient)" r else r)

/-- `SchedulingAgent._book_consecutive_slots`: compute the time 30 minutes
after the selected slot (modulo 24 hours, from `strftime('%H:%M')`), fail
without touching the table when no available row has that time for the
same doctor/location/date, otherwise book the selected slot and the next
slot through `update_doctor_schedule` (called with patient types
`"consecutive_first"` / `"consecutive_second"`, which take its
single-slot branch). -/
def bookConsecutiveSlots (slot : AppointmentSlot) (tbl : List ScheduleRow) :
    Bool × List ScheduleRow :=
  let nextTime := (slot.time + 30) % 1440
  if tbl.any (fun r =>
      slotMask slot.doctor slot.location slot.date nextTime r && r.available) then
    let t1 := updateDoctorSchedule slot "consecutive_first" tbl
    let t2 := updateDoctorSchedule
      { slot with time := nextTime, duration_available := 30 }
      "consecutive_second" t1
    (true, t2)
  else
    (false, tbl)

/-- `SchedulingAgent.book_appointment_slot`: convert the 1-based index to
0-based, reject out-of-range indices without touching the schedule, and
otherwise book through `_book_consecutive_slots` (new patients) or
`update_doctor_schedule` (returning patients).  The returned option is the
selected slot (`None` on error or failure). -/
def bookAppointmentSlot (slotIndex : Int) (availableSlots : List AppointmentSlot)
    (patientType : String) (tbl : List ScheduleRow) :
    Option AppointmentSlot × List ScheduleRow :=
  let actualIndex := slotIndex - 1
  if actualIndex < 0 || (availableSlots.length : Int) ≤ actualIndex then
    (none, tbl)
  else
    match availableSlots.get? actualIndex.toNat with
    | none => (none, tbl)
    | some selected =>
      if patientType == "new" then
        let (ok, t') := bookConsecutiveSlots selected tbl
        if ok then (some selected, t') else (none, t')
      else
        (some selected, updateDoctorSchedule selected patientType tbl)

/-! ## Patient directory model (`src/agents/lookup_agent.py`)

A row of `patients.csv` restricted to the columns the lookup paths read
(`patient_id`, `first_name`, `last_name`, `dob`, `last_visit` and the
three insurance columns); the remaining columns written for a new patient
(phone, email, ...) do not influence any embedded computation. -/

structure PatientRow where
  patient_id : String
  first_name : String
  last_name : String
  dob : String
  last_visit : String
  insurance_carrier : String
  member_id : String
  group_number : String
deriving DecidableEq, Repr

/-- The `PatientLookupResult` pydantic model
(`src/models/patients_models.py`), with `existing_insurance` flattened to
the `(carrier, member_id, group_number)` triple the lookup agent stores in
it. -/
structure PatientLookupResult where
  patient_id : String
  patient_type : String
  appointment_duration : Nat
  last_visit : Option String
  existing_insurance : Option (String × String × String)
deriving DecidableEq, Repr

/-- `LookupAgent._normalize_dob_for_search`: normalize a DOB string for
comparison.  Faithfully keeps the source's branch order: a string
containing `'/'` is parsed month-first; otherwise a string containing
`'-'` is parsed month-first (this `elif` captures every dash-separated
string, so the later ISO `YYYY-MM-DD` branch of the source is
unreachable); otherwise an 8-digit string is already normalized; anything
else is returned as-is. -/
def normalizeDobForSearch (dob : String) : String :=
  let dob := pyStrip dob
  if pyContainsChar dob '/' then
    let parts := pySplitChar '/' dob
    if parts.length == 3 && parts.all pyIsDigit then
      let month := parts.getD 0 ""
      let day := parts.getD 1 ""
      let year := parts.getD 2 ""
      year ++ pyZfill 2 month ++ pyZfill 2 day
    else dob
  else if pyContainsChar dob '-' then
    let parts := pySplitChar '-' dob
    if parts.length == 3 && parts.all pyIsDigit then
      let month := parts.getD 0 ""
      let day := parts.getD 1 ""
      let year := parts.getD 2 ""
      year ++ pyZfill 2 month ++ pyZfill 2 day
    else dob
  else if dob.length == 10 && (dob.data.filter (fun c => c = '-')).length == 2 then
    -- source comment says "Handle YYYY-MM-DD format"; unreachable, since any
    -- string containing '-' already took the branch above
    let parts := pySplitChar '-' dob
    if parts.length == 3 && parts.all pyIsDigit then
      let year := parts.getD 0 ""
      let month := parts.getD 1 ""
      let day := parts.getD 2 ""
      year ++ pyZfill 2 month ++ pyZfill 2 day
    else dob
  else if dob.length == 8 && pyIsDigit dob then dob
  else dob

/-- `LookupAgent._find_patient_by_name_and_dob`: first row whose
`"first last"` (lowercased) contains the lowercased searched name as a
substring and whose normalized DOB equals the normalized searched DOB. -/
def findPatientByNameAndDob (df : List PatientRow) (patientNameLower dob : String) :
    Option PatientRow :=
  let normalizedDob := normalizeDobForSearch dob
  df.find? (fun row =>
    pyContains (pyLower (row.first_name ++ " " ++ row.last_name)) patientNameLower &&
      normalizedDob == normalizeDobForSearch row.dob)

/-- The numeric suffixes `LookupAgent._generate_next_patient_id` scans:
for every `patient_id` starting with `"PAT_"` whose last `'_'`-separated
part is all digits, that part as a number (covers both `PAT_001` and
`PAT_20250903_001`). -/
def existingPatientNumbers (df : List PatientRow) : List Nat :=
  df.filterMap (fun row =>
    if pyStartsWith row.patient_id "PAT_" then
      let parts := pySplitChar '_' row.patient_id
      if 2 ≤ parts.length && pyIsDigit (parts.getLastD "") then
        some (pyParseNat (parts.getLastD ""))
      else none
    else none)

/-- The number chosen by `_generate_next_patient_id`:
`max(existing) + 1` when any numeric suffix exists, else `1`.  (The
`len(df) + 1` fallback of the source sits in an `except` handler that the
scan itself can never trigger.) -/
def nextPatientNumber (df : List PatientRow) : Nat :=
  let nums := existingPatientNumbers df
  if nums.isEmpty then 1 else nums.foldl Nat.max 0 + 1

/-- `LookupAgent._generate_next_patient_id`: `f"PAT_{next_number:03d}"`. -/
def generateNextPatientId (df : List PatientRow) : String :=
  "PAT_" ++ padNum 3 (nextPatientNumber df)

/-- The intake data `search_patient` receives (only the fields the lookup
paths read). -/
structure LookupInput where
  patient_name : String
  date_of_birth : String
deriving DecidableEq, Repr

/-- The `new_patient_record` built by `LookupAgent._handle_new_patient`:
the next patient id, first word of the name as first name, the rest as
last name, today's date as `last_visit`, and empty insurance columns.
The `first_name` expression is
`patient_name.split()[0] if patient_name else ''`: for a truthy name with
no whitespace-separated words (e.g. `" "`), the `[0]` indexing raises an
uncaught `IndexError`, embedded as `.error "IndexError"` — nothing is
built or appended in that case. -/
def newPatientRow (currentData : LookupInput) (todayStr : String)
    (df : List PatientRow) : Except String PatientRow :=
  let parts := pySplitWs currentData.patient_name
  if currentData.patient_name ≠ "" ∧ parts = [] then .error "IndexError"
  else .ok
    { patient_id := generateNextPatientId df
      first_name := if currentData.patient_name ≠ "" then parts.headD "" else ""
      last_name := if 1 < parts.length then pyJoin " " parts.tail else ""
      dob := currentData.date_of_birth
      last_visit := todayStr
      insurance_carrier := ""
      member_id := ""
      group_number := "" }

/-- `LookupAgent._handle_new_patient`: append the one new row and return a
`new`/60-minute lookup result; the `IndexError` of the record
construction propagates (the method has no `try`).
`_save_new_patient_to_csv` re-reads the CSV (in sync with the in-memory
table in this single-process model) and appends the same record once, so
the net effect is a single appended row. -/
def handleNewPatient (currentData : LookupInput) (todayStr : String)
    (df : List PatientRow) : Except String (PatientLookupResult × List PatientRow) :=
  (newPatientRow currentData todayStr df).map (fun newRow =>
    ({ patient_id := generateNextPatientId df
       patient_type := "new"
       appointment_duration := 60
       last_visit := none
       existing_insurance := none },
     df ++ [newRow]))

/-- `LookupAgent._handle_returning_patient`: a `returning`/30-minute
result carrying the stored last visit and insurance snapshot. -/
def handleReturningPatient (dbPatient : PatientRow) : PatientLookupResult :=
  { patient_id := dbPatient.patient_id
    patient_type := "returning"
    appointment_duration := 30
    last_visit := some dbPatient.last_visit
    existing_insurance := some
      (dbPatient.insurance_carrier, dbPatient.member_id, dbPatient.group_number) }

/-- `LookupAgent.search_patient`: guard on an empty database and on
missing name/DOB, then dispatch on whether the patient is found.  The
user-facing message strings are presentation only and are not modelled;
the returned option is the lookup result, paired with the table state
after the call.  `search_patient` has no `try`, so the new-patient
`IndexError` propagates out (`.error`). -/
def searchPatient (df : List PatientRow) (patientData : LookupInput)
    (todayStr : String) :
    Except String (Option PatientLookupResult × List PatientRow) :=
  if df.isEmpty then .ok (none, df)
  else
    let patientName := pyLower patientData.patient_name
    let dob := patientData.date_of_birth
    if patientName == "" || dob == "" then .ok (none, df)
    else
      match findPatientByNameAndDob df patientName dob with
      | some foundPatient => .ok (some (handleReturningPatient foundPatient), df)
      | none =>
        match handleNewPatient patientData todayStr df with
        | .error e => .error e
        | .ok res => .ok (some res.1, res.2)

/-! ## Insurance agent (`src/agents/insurance_agent.py`) -/

/-- `InsuranceAgent._validate_carrier`: strip, require length ≥ 2, store
the stripped carrier.  `.error` carries the failure message (the agent
re-asks); `.ok` carries the stored value. -/
def validateCarrier (carrier : String) : Except String String :=
  let carrier := pyStrip carrier
  if carrier.length < 2 then .error "Please provide a valid insurance carrier name."
  else .ok carrier

/-- `InsuranceAgent._validate_member_id`: strip, require length ≥ 5
(before removing spaces/hyphens), then remove spaces and hyphens and
require the remainder alphanumeric (Python `isalnum`, false on empty);
store the cleaned id. -/
def validateMemberId (memberId : String) : Except String String :=
  let memberId := pyStrip memberId
  if memberId.length < 5 then .error "Member ID must be at least 5 characters long."
  else
    let cleanId := stripSpacesHyphens memberId
    if !pyIsAlnum cleanId then .error "Member ID must contain only letters and numbers."
    else .ok cleanId

/-- `InsuranceAgent._validate_group_number`: same as the member id with
minimum length 3. -/
def validateGroupNumber (groupNumber : String) : Except String String :=
  let groupNumber := pyStrip groupNumber
  if groupNumber.length < 3 then .error "Group number must be at least 3 characters long."
  else
    let cleanGroup := stripSpacesHyphens groupNumber
    if !pyIsAlnum cleanGroup then .error "Group number must contain only letters and numbers."
    else .ok cleanGroup

/-- The mutable state of a step collector: index of the current field and
the field → value mapping collected so far (a Python dict, embedded as an
association list where storing overwrites an existing key). -/
structure CollectorState where
  currentFieldIndex : Nat
  collectedData : List (String × String)
deriving DecidableEq, Repr

/-- Python dict assignment `d[k] = v`. -/
def storeKV (kvs : List (String × String)) (k v : String) : List (String × String) :=
  if kvs.any (fun p => p.1 == k) then
    kvs.map (fun p => if p.1 == k then (k, v) else p)
  else kvs ++ [(k, v)]

/-- Python dict lookup `d[k]` with default `""` (every key read below was
stored by an earlier successful validation). -/
def lookupKV (kvs : List (String × String)) (k : String) : String :=
  ((kvs.find? (fun p => p.1 == k)).map Prod.snd).getD ""

/-- The outcome of one `process_input` turn:
`(response_message, is_complete, collected_data)`. -/
structure TurnOutput where
  message : String
  isComplete : Bool
  data : Option (List (String × String))
deriving DecidableEq, Repr

/-- `InsuranceAgent.required_fields`. -/
def insuranceFields : List String := ["primary_carrier", "member_id", "group_number"]

/-- `InsuranceAgent._collect_field`: dispatch to the field's validator;
`.error` carries the failure message, on which the agent does not store
anything and does not advance. -/
def insuranceCollectField (fieldName value : String) : Except String String :=
  if fieldName == "primary_carrier" then validateCarrier value
  else if fieldName == "member_id" then validateMemberId value
  else if fieldName == "group_number" then validateGroupNumber value
  else .error ("Unknown field: " ++ fieldName)

/-- `InsuranceAgent._get_next_field_prompt`. -/
def insuranceNextFieldPrompt (fieldName : String) : String :=
  if fieldName == "primary_carrier" then
    "Please provide your **primary insurance carrier** (e.g., Blue Cross Blue Shield, Aetna, Cigna)."
  else if fieldName == "member_id" then
    "What is your **member ID**? (This is usually found on your insurance card)"
  else if fieldName == "group_number" then
    "Finally, what is your **group number**? (Also found on your insurance card)"
  else "Please provide your " ++ fieldName ++ "."

/-- `InsuranceAgent._get_completion_message`. -/
def insuranceCompletionMessage (collected : List (String × String)) : String :=
  "Perfect! I have all your insurance information:\n\n**Primary Carrier**: " ++
    lookupKV collected "primary_carrier" ++ "\n**Member ID**: " ++
    lookupKV collected "member_id" ++ "\n**Group Number**: " ++
    lookupKV collected "group_number" ++
    "\n\nNow let me confirm your complete appointment booking..."

/-- The re-prompt both collectors give on `None`, empty or whitespace-only
input. -/
def didNotCatchMessage : String := "I didn't catch that. Could you please repeat?"

/-- `InsuranceAgent.process_input`.  `none` input models Python `None`.
The result is `Except`: `.error "IndexError"` marks the only place the
Python body could raise (indexing `required_fields[current_field_index]`
past the end); every other path returns normally. -/
def insuranceProcessInput (userInput : Option String) (st : CollectorState) :
    Except String (TurnOutput × CollectorState) :=
  match userInput with
  | none => .ok ({ message := didNotCatchMessage, isComplete := false, data := none }, st)
  | some raw =>
    let userInput := pyStrip raw
    if userInput == "" then
      .ok ({ message := didNotCatchMessage, isComplete := false, data := none }, st)
    else
      match insuranceFields.get? st.currentFieldIndex with
      | none => .error "IndexError"
      | some currentField =>
        match insuranceCollectField currentField userInput with
        | .ok value =>
          let st' : CollectorState :=
            { currentFieldIndex := st.currentFieldIndex + 1
              collectedData := storeKV st.collectedData currentField value }
          if insuranceFields.length ≤ st'.currentFieldIndex then
            .ok ({ message := insuranceCompletionMessage st'.collectedData
                   isComplete := true
                   data := some st'.collectedData }, st')
          else
            .ok ({ message :=
                     insuranceNextFieldPrompt (insuranceFields.getD st'.currentFieldIndex "")
                   isComplete := false
                   data := none }, st')
        | .error response =>
          .ok ({ message := response
                 isComplete := false
                 data := none }, st)

/-! ## Greeting agent (`src/agents/greeting_agent.py`)

The step-by-step patient intake collector.  Each validator returns
`.error message` on failure (nothing stored, index not advanced) or
`.ok (stored_value, response_message)` on success. -/

/-- Python `str(i)` for the ints rendered below (ages are nonnegative but
the embedding keeps the general form). -/
def pyIntRepr (i : Int) : String :=
  if i < 0 then "-" ++ Nat.repr i.natAbs else Nat.repr i.toNat

/-- `GreetingAgent._validate_name`. -/
def greetingValidateName (name : String) : Except String (String × String) :=
  let parts := pySplitWs (pyStrip name)
  if 2 ≤ parts.length then
    let value := pyJoin " " (parts.map pyTitle)
    .ok (value, "✅ Got it! Your name is **" ++ value ++ "**.")
  else .error "Please provide both your first and last name."

/-- The fall-through error message of `_validate_dob` (no format matched,
or every attempted interpretation failed to construct a date). -/
def dobFormatErrorMessage : String :=
  "I couldn't understand that date format. Please try one of these formats:\n" ++
  "• **MM/DD/YYYY** (e.g., 06/20/2004)\n" ++
  "• **DD/MM/YYYY** (e.g., 20/06/2004)\n" ++
  "• **MM-DD-YYYY** (e.g., 06-20-2004)\n" ++
  "• **DD-MM-YYYY** (e.g., 20-06-2004)"

/-- The reasonableness checks `_validate_dob` runs once a
`date(year, month, day)` was constructed: reject future dates, compute the
age with the usual birthday borrow, reject age > 120.  Returns
`(month, day, year, age)` canonically. -/
def dobConstructChecks (today : Ymd) (year month day : Nat) :
    Except String (Nat × Nat × Nat × Int) :=
  if ymdLt today ⟨year, month, day⟩ then
    .error "Date of birth cannot be in the future. Please check your input."
  else
    let borrow : Int :=
      if today.month < month || (today.month == month && today.day < day) then 1 else 0
    let age : Int := (today.year : Int) - (year : Int) - borrow
    if 120 < age then
      .error "Please verify the date of birth. The age seems too high."
    else .ok (month, day, year, age)

/-- The interpretation core of `GreetingAgent._validate_dob` on the three
parsed integer components `p0/p1/p2` (or `p0-p1-p2`): choose month-first
when `p0 ≤ 12 ∧ p1 ≤ 31`, else day-first when `p1 ≤ 12 ∧ p0 ≤ 31`, else
default to month-first; when the chosen `date(...)` construction raises,
the `except` handler retries day-first provided `p1 ≤ 12 ∧ p0 ≤ 31`.  A
retry that fails again (or is unavailable) hits `continue`, and the
remaining loop iterations repeat the identical computation, so the
function falls through to the format error message. -/
def validateDobCore (today : Ymd) (p0 p1 p2 : Nat) :
    Except String (Nat × Nat × Nat × Int) :=
  let fallback : Except String (Nat × Nat × Nat × Int) :=
    if p1 ≤ 12 && p0 ≤ 31 then
      if pyDateValid p2 p1 p0 then dobConstructChecks today p2 p1 p0
      else .error dobFormatErrorMessage
    else .error dobFormatErrorMessage
  if p0 ≤ 12 && p1 ≤ 31 then
    if pyDateValid p2 p0 p1 then dobConstructChecks today p2 p0 p1 else fallback
  else if p1 ≤ 12 && p0 ≤ 31 then
    if pyDateValid p2 p1 p0 then dobConstructChecks today p2 p1 p0 else fallback
  else
    if pyDateValid p2 p0 p1 then dobConstructChecks today p2 p0 p1 else fallback

/-- The regex `^\d{1,2}<sep>\d{1,2}<sep>\d{4}$` of `_validate_dob`. -/
def matchesDobPattern (t : String) (sep : Char) : Bool :=
  let ps := pySplitChar sep t
  ps.length == 3 &&
    (let a := ps.getD 0 ""
     1 ≤ a.length && a.length ≤ 2 && a.data.all Char.isDigit) &&
    (let b := ps.getD 1 ""
     1 ≤ b.length && b.length ≤ 2 && b.data.all Char.isDigit) &&
    (let c := ps.getD 2 ""
     c.length == 4 && c.data.all Char.isDigit)

/-- The `date_formats` loop of `_validate_dob`: the two slash patterns
are textually identical, as are the two dash patterns, so matching
reduces to: try `/`-separated, else `-`-separated. -/
def parseDobParts (t : String) : Option (Nat × Nat × Nat) :=
  if matchesDobPattern t '/' then
    let ps := pySplitChar '/' t
    some (pyParseNat (ps.getD 0 ""), pyParseNat (ps.getD 1 ""), pyParseNat (ps.getD 2 ""))
  else if matchesDobPattern t '-' then
    let ps := pySplitChar '-' t
    some (pyParseNat (ps.getD 0 ""), pyParseNat (ps.getD 1 ""), pyParseNat (ps.getD 2 ""))
  else none

/-- `f"{month:02d}/{day:02d}/{year}"`, the canonical DOB rendering. -/
def renderDob (month day year : Nat) : String :=
  padNum 2 month ++ "/" ++ padNum 2 day ++ "/" ++ Nat.repr year

/-- `GreetingAgent._validate_dob` on the raw input string. -/
def greetingValidateDob (today : Ymd) (dobInput : String) :
    Except String (String × String) :=
  match parseDobParts (pyStrip dobInput) with
  | none => .error dobFormatErrorMessage
  | some (p0, p1, p2) =>
    match validateDobCore today p0 p1 p2 with
    | .error e => .error e
    | .ok (month, day, year, age) =>
      let formattedDob := renderDob month day year
      .ok (formattedDob,
        "✅ Got it! Your date of birth is **" ++ formattedDob ++ "** (you're " ++
          pyIntRepr age ++ " years old).")

/-- `GreetingAgent._validate_phone_input`. -/
def greetingValidatePhone (phone : String) : Except String (String × String) :=
  let phone := pyStrip phone
  let digits := phone.data.filter Char.isDigit
  if 10 ≤ digits.length then
    let seg (a b : Nat) : String := String.mk ((digits.drop a).take (b - a))
    let formattedPhone :=
      if digits.length == 10 then
        "(" ++ seg 0 3 ++ ") " ++ seg 3 6 ++ "-" ++ seg 6 10
      else if digits.length == 11 && digits.headD ' ' == '1' then
        "+1 (" ++ seg 1 4 ++ ") " ++ seg 4 7 ++ "-" ++ seg 7 11
      else phone
    .ok (formattedPhone, "✅ Got it! Your phone number is **" ++ formattedPhone ++ "**.")
  else .error "Please provide a valid phone number with at least 10 digits."

/-- `GreetingAgent._validate_email_input`. -/
def greetingValidateEmail (email : String) : Except String (String × String) :=
  let email := pyLower (pyStrip email)
  if pyContainsChar email '@' && pyContainsChar email '.' then
    .ok (email, "✅ Got it! Your email is **" ++ email ++ "**.")
  else .error "Please provide a valid email address (e.g., john@example.com)."

/-- `GreetingAgent._validate_doctor_input` (fuzzy substring match). -/
def greetingValidateDoctor (doctorInput : String) : Except String (String × String) :=
  let t := pyLower (pyStrip doctorInput)
  if pyContains t "naveen" then
    .ok ("Dr. Naveen", "✅ Great choice! You've selected **Dr. Naveen**.")
  else if pyContains t "naresh" then
    .ok ("Dr. Naresh", "✅ Great choice! You've selected **Dr. Naresh**.")
  else if pyContains t "aish" then
    .ok ("Dr. Aish", "✅ Great choice! You've selected **Dr. Aish**.")
  else if pyContains t "shreyansh" then
    .ok ("Dr. Shreyansh", "✅ Great choice! You've selected **Dr. Shreyansh**.")
  else
    .error "Please choose from our available doctors: **Dr. Naveen**, **Dr. Naresh**, **Dr. Aish**, or **Dr. Shreyansh**."

/-- `GreetingAgent._validate_location_input` (fuzzy substring match). -/
def greetingValidateLocation (locationInput : String) : Except String (String × String) :=
  let t := pyLower (pyStrip locationInput)
  if pyContains t "gachibowli" then
    .ok ("Gachibowli", "✅ Perfect! You've selected **Gachibowli** location.")
  else if pyContains t "jubliee" || pyContains t "jubilee" then
    .ok ("Jubliee Hills", "✅ Perfect! You've selected **Jubliee Hills** location.")
  else if pyContains t "banjara" then
    .ok ("Banjara Hills", "✅ Perfect! You've selected **Banjara Hills** location.")
  else
    .error "Please choose from our available locations: **Gachibowli**, **Jubliee Hills**, or **Banjara Hills**."

/-- `GreetingAgent.fields`. -/
def greetingFields : List String :=
  ["patient_name", "date_of_birth", "phone", "email", "preferred_doctor", "location"]

/-- `GreetingAgent._process_current_field`: dispatch to the field's
validator. -/
def greetingProcessCurrentField (today : Ymd) (fieldName userInput : String) :
    Except String (String × String) :=
  if fieldName == "patient_name" then greetingValidateName userInput
  else if fieldName == "date_of_birth" then greetingValidateDob today userInput
  else if fieldName == "phone" then greetingValidatePhone userInput
  else if fieldName == "email" then greetingValidateEmail userInput
  else if fieldName == "preferred_doctor" then greetingValidateDoctor userInput
  else if fieldName == "location" then greetingValidateLocation userInput
  else .error "Unknown field"

/-- `GreetingAgent._get_next_field_prompt`. -/
def greetingNextFieldPrompt (fieldName : String) : String :=
  if fieldName == "patient_name" then
    "Could you please tell me your **full name** (first and last name)?"
  else if fieldName == "date_of_birth" then
    "What's your **date of birth**? Please use MM/DD/YYYY format (e.g., 12/25/1990)."
  else if fieldName == "phone" then "What's your **phone number**?"
  else if fieldName == "email" then "What's your **email address**?"
  else if fieldName == "preferred_doctor" then
    "Which **doctor** would you like to see?\n\n**Available doctors:**\n• Dr. Naveen\n• Dr. Naresh\n• Dr. Aish\n• Dr. Shreyansh"
  else if fieldName == "location" then
    "Which **location** would you prefer?\n\n**Available locations:**\n• Gachibowli\n• Jubliee Hills\n• Banjara Hills"
  else "Please provide the requested information."

/-- `GreetingAgent._get_completion_message`. -/
def greetingCompletionMessage (collected : List (String × String)) : String :=
  "🎉 Perfect! I have all your information:\n\n**Name**: " ++
    lookupKV collected "patient_name" ++ "\n**DOB**: " ++
    lookupKV collected "date_of_birth" ++ "\n**Phone**: " ++
    lookupKV collected "phone" ++ "\n**Email**: " ++
    lookupKV collected "email" ++ "\n**Doctor**: " ++
    lookupKV collected "preferred_doctor" ++ "\n**Location**: " ++
    lookupKV collected "location" ++
    "\n\nNow let me search our patient database to see if you're a new or returning patient..."

/-- The greeting collector's state: current field index, collected data,
and the conversation history. -/
structure GreetingState where
  currentField : Nat
  collectedData : List (String × String)
  conversationHistory : List String
deriving DecidableEq, Repr

/-- `GreetingAgent.process_input`.  `none` models Python `None`; the
`.error "IndexError"` branch marks the one place the body could raise
(indexing `fields[current_field]` past the end), which sits after the
empty-input guard and the history append. -/
def greetingProcessInput (today : Ymd) (userInput : Option String)
    (st : GreetingState) : Except String (TurnOutput × GreetingState) :=
  match userInput with
  | none => .ok ({ message := didNotCatchMessage, isComplete := false, data := none }, st)
  | some raw =>
    let userInput := pyStrip raw
    if userInput == "" then
      .ok ({ message := didNotCatchMessage, isComplete := false, data := none }, st)
    else
      let st1 : GreetingState :=
        { st with conversationHistory := st.conversationHistory ++ ["Patient: " ++ userInput] }
      match greetingFields.get? st1.currentField with
      | none => .error "IndexError"
      | some currentFieldName =>
        match greetingProcessCurrentField today currentFieldName userInput with
        | .ok (value, response) =>
          let st2 : GreetingState :=
            { st1 with
              currentField := st1.currentField + 1
              collectedData := storeKV st1.collectedData currentFieldName value }
          if greetingFields.length ≤ st2.currentField then
            .ok ({ message := greetingCompletionMessage st2.collectedData
                   isComplete := true
                   data := some st2.collectedData }, st2)
          else
            .ok ({ message :=
                     response ++ "\n\n" ++
                       greetingNextFieldPrompt (greetingFields.getD st2.currentField "")
                   isComplete := false
                   data := none }, st2)
        | .error response =>
          .ok ({ message := response, isComplete := false, data := none }, st1)

/-! ## Confirmation agent (`src/agents/confirmation_agent.py`) -/

/-- A wall-clock instant, standing for `datetime.now()`. -/
structure DateTime6 where
  year : Nat
  month : Nat
  day : Nat
  hour : Nat
  minute : Nat
  second : Nat
deriving DecidableEq, Repr

/-- `datetime.now().strftime('%Y%m%d_%H%M%S')` (all components
zero-padded; `%Y` to four digits). -/
def strftimeTimestamp (now : DateTime6) : String :=
  padNum 4 now.year ++ padNum 2 now.month ++ padNum 2 now.day ++ "_" ++
    padNum 2 now.hour ++ padNum 2 now.minute ++ padNum 2 now.second

/-- `ConfirmationAgent._generate_appointment_id`:
`f"APT_{timestamp}_{suffix}"` where `suffix` is
`str(len(confirmed_appointments) + 1).zfill(3)`. -/
def generateAppointmentId (now : DateTime6) (confirmedCount : Nat) : String :=
  "APT_" ++ strftimeTimestamp now ++ "_" ++ pyZfill 3 (Nat.repr (confirmedCount + 1))

/-- The regex `^APT_\d{8}_\d{3}$` of
`AppointmentBooking.validate_appointment_id_format`
(`src/models/appointment_models.py`), decided structurally. -/
def matchesAppointmentIdPattern (s : String) : Bool :=
  match s.data with
  | 'A' :: 'P' :: 'T' :: '_' :: rest =>
    (rest.take 8).length == 8 && (rest.take 8).all Char.isDigit &&
      (match rest.drop 8 with
       | '_' :: d3 => d3.length == 3 && d3.all Char.isDigit
       | _ => false)
  | _ => false

/-! ## Helper lemmas -/

/-- Length of a zero-padded string: padding to width `w` never shortens,
and a string of length ≤ `w` is padded to exactly `w`. -/
theorem pyZfill_length (w : Nat) (s : String) :
    (pyZfill w s).length = (w - s.length) + s.length := by
  rw [pyZfill, String.length_append]
  have h : (String.mk (List.replicate (w - s.length) '0')).length = w - s.length := by
    show (List.replicate (w - s.length) '0').length = w - s.length
    exact List.length_replicate _ _
  rw [h]

theorem padNum_length_ge (w n : Nat) : w ≤ (padNum w n).length := by
  rw [padNum, pyZfill_length]; omega

theorem padNum_length_eq_of_le (w n : Nat) (h : (Nat.repr n).length ≤ w) :
    (padNum w n).length = w := by
  rw [padNum, pyZfill_length]; omega

/-- The initial accumulator never exceeds a `foldl Nat.max`. -/
theorem foldl_max_init_le (l : List Nat) : ∀ (b : Nat), b ≤ l.foldl Nat.max b := by
  induction l with
  | nil => intro b; exact Nat.le_refl b
  | cons y ys ih =>
    intro b
    exact Nat.le_trans (Nat.le_max_left b y) (ih (Nat.max b y))

/-- Every element of a list is at most the `foldl Nat.max` over it. -/
theorem le_foldl_max (l : List Nat) : ∀ (a : Nat), ∀ k ∈ l, k ≤ l.foldl Nat.max a := by
  induction l with
  | nil => intro a k hk; cases hk
  | cons x xs ih =>
    intro a k hk
    simp only [List.foldl]
    cases hk with
    | head => exact Nat.le_trans (Nat.le_max_right a x) (foldl_max_init_le xs (Nat.max a x))
    | tail _ hmem => exact ih (Nat.max a x) k hmem

/-! ## Claim theorems -/

/-- C5: the claim states that the DOB normalization used by patient search
maps the ISO `YYYY-MM-DD` rendering of a date to the same `YYYYMMDD`
digit string as the `MM/DD/YYYY` rendering.  The code refutes it: any
dash-separated string is captured by the `MM-DD-YYYY` branch (the
dedicated ISO branch below it is unreachable), so `"1995-05-15"`
normalizes to `"15199505"` while `"05/15/1995"` normalizes to
`"19950515"` — the same person's ISO-stored DOB does not compare equal. -/
theorem C5_iso_dob_normalization_mismatch :
    normalizeDobForSearch "1995-05-15" = "15199505" ∧
    normalizeDobForSearch "05/15/1995" = "19950515" ∧
    normalizeDobForSearch "1995-05-15" ≠ normalizeDobForSearch "05/15/1995" := by
  refine ⟨by decide, by decide, by decide⟩

/-- C6: every lookup result produced by `search_patient` satisfies
`patient_type = "new" ↔ appointment_duration = 60` and
`patient_type = "returning" ↔ appointment_duration = 30`: the duration is
a function of the type (the only two constructions are the
returning/30 and new/60 results). -/
theorem C6_duration_determined_by_type
    (df : List PatientRow) (input : LookupInput) (todayStr : String)
    (r : PatientLookupResult) (df' : List PatientRow)
    (h : searchPatient df input todayStr = .ok (some r, df')) :
    (r.patient_type = "new" ↔ r.appointment_duration = 60) ∧
    (r.patient_type = "returning" ↔ r.appointment_duration = 30) := by
  unfold searchPatient at h
  split at h
  · exact absurd h (by simp)
  · dsimp only at h
    split at h
    · exact absurd h (by simp)
    · split at h
      case h_1 foundPatient heq =>
        have hr : r = handleReturningPatient foundPatient := by
          simp only [Except.ok.injEq, Prod.mk.injEq, Option.some.injEq] at h
          exact h.1.symm
        subst hr
        refine ⟨by simp [handleReturningPatient], by simp [handleReturningPatient]⟩
      case h_2 heq =>
        split at h
        · exact absurd h (by simp)
        case h_2 res heq2 =>
          have hr : r = res.1 := by
            simp only [Except.ok.injEq, Prod.mk.injEq, Option.some.injEq] at h
            exact h.1.symm
          subst hr
          unfold handleNewPatient at heq2
          cases hnr : newPatientRow input todayStr df with
          | error e =>
            rw [hnr] at heq2
            exact absurd heq2 (by simp [Except.map])
          | ok nr =>
            rw [hnr] at heq2
            simp only [Except.map, Except.ok.injEq] at heq2
            rw [← heq2]
            refine ⟨by simp, by simp⟩

/-- A one-row patient directory used to instantiate the lookup theorems. -/
def lucasRow : PatientRow :=
  ⟨"PAT_007", "Lucas", "Ho", "04/24/1988", "2025-01-02", "Aetna", "A123", "G55"⟩

def sampleDirectory : List PatientRow := [lucasRow]

/-- C6 witness: `C6_duration_determined_by_type` applied to a concrete
returning-patient lookup against `sampleDirectory`. -/
theorem C6_duration_determined_by_type_witness :
    ((handleReturningPatient lucasRow).patient_type = "new" ↔
      (handleReturningPatient lucasRow).appointment_duration = 60) ∧
    ((handleReturningPatient lucasRow).patient_type = "returning" ↔
      (handleReturningPatient lucasRow).appointment_duration = 30) :=
  C6_duration_determined_by_type sampleDirectory
    ⟨"Lucas Ho", "04/24/1988"⟩ "2025-09-03" (handleReturningPatient lucasRow)
    sampleDirectory (by decide)

/-- C7 counterexample: the claim says acceptance requires the
space/hyphen-stripped string to be at least 5 characters.  `"A-B-C-1"` is
accepted (the 5-character minimum is checked before the stripping), yet
its stripped form `"ABC1"` has only 4 characters. -/
theorem C7_length_before_strip_counterexample :
    validateMemberId "A-B-C-1" = .ok "ABC1" ∧
    (stripSpacesHyphens (pyStrip "A-B-C-1")).length < 5 := by
  refine ⟨by decide, by decide⟩

/-- C7 (amended): member-id validation accepts exactly when the
whitespace-trimmed input is at least 5 characters long **before** spaces
and hyphens are removed, and the space/hyphen-stripped remainder is
nonempty and alphanumeric-only; the stored value is the stripped
remainder. -/
theorem C7_member_id_validation (s : String) :
    ((∃ v, validateMemberId s = .ok v) ↔
      (5 ≤ (pyStrip s).length ∧ pyIsAlnum (stripSpacesHyphens (pyStrip s)) = true)) ∧
    (∀ v, validateMemberId s = .ok v → v = stripSpacesHyphens (pyStrip s)) := by
  unfold validateMemberId
  by_cases h1 : (pyStrip s).length < 5
  · simp [h1]
  · by_cases h2 : pyIsAlnum (stripSpacesHyphens (pyStrip s)) = true
    · simp [h1, h2]
      omega
    · simp [h1, h2]

/-- C7 witness: the amended theorem applied to `"AB-123"`, whose stored
value is the stripped `"AB123"`. -/
theorem C7_member_id_validation_witness :
    validateMemberId "AB-123" = .ok "AB123" ∧
    "AB123" = stripSpacesHyphens (pyStrip "AB-123") :=
  ⟨by decide, (C7_member_id_validation "AB-123").2 "AB123" (by decide)⟩

/-- Any string accepted by the `APT_\d{8}_\d{3}` check has exactly 16
characters. -/
theorem matchesAppointmentIdPattern_length (s : String)
    (h : matchesAppointmentIdPattern s = true) : s.data.length = 16 := by
  unfold matchesAppointmentIdPattern at h
  split at h
  case h_2 => exact absurd h (by simp)
  case h_1 rest heq =>
    rw [Bool.and_eq_true, Bool.and_eq_true] at h
    obtain ⟨⟨htake, _⟩, hrest⟩ := h
    rw [beq_iff_eq] at htake
    split at hrest
    case h_2 => exact absurd hrest (by simp)
    case h_1 d3 heq2 =>
      rw [Bool.and_eq_true, beq_iff_eq] at hrest
      obtain ⟨hd3, _⟩ := hrest
      have h1 : rest.length - 8 = d3.length + 1 := by
        have := congrArg List.length heq2
        rw [List.length_drop] at this
        simpa using this
      have h2 : (rest.take 8).length = min 8 rest.length := List.length_take 8 rest
      rw [htake] at h2
      have : s.data.length = rest.length + 4 := by rw [heq]; simp
      omega

/-- Every timestamp `%Y%m%d_%H%M%S` is at least 15 characters. -/
theorem strftimeTimestamp_length (now : DateTime6) :
    15 ≤ (strftimeTimestamp now).length := by
  unfold strftimeTimestamp
  rw [String.length_append, String.length_append, String.length_append,
    String.length_append, String.length_append, String.length_append]
  have h1 := padNum_length_ge 4 now.year
  have h2 := padNum_length_ge 2 now.month
  have h3 := padNum_length_ge 2 now.day
  have h4 := padNum_length_ge 2 now.hour
  have h5 := padNum_length_ge 2 now.minute
  have h6 := padNum_length_ge 2 now.second
  have hu : ("_" : String).length = 1 := rfl
  omega

/-- C9: the claim states every generated appointment id matches
`APT_\d{8}_\d{3}` (the format the `AppointmentBooking` pydantic validator
enforces).  The code refutes it for **every** wall-clock instant and
confirmation count: `_generate_appointment_id` emits
`APT_<YYYYMMDD>_<HHMMSS>_<seq>`, at least 23 characters, while the
pattern admits only 16-character strings; a concrete instantiation and a
string of the intended shape are checked alongside. -/
theorem C9_appointment_id_pattern_mismatch :
    (∀ (now : DateTime6) (confirmedCount : Nat),
      matchesAppointmentIdPattern (generateAppointmentId now confirmedCount) = false) ∧
    generateAppointmentId ⟨2025, 9, 3, 14, 30, 0⟩ 0 = "APT_20250903_143000_001" ∧
    matchesAppointmentIdPattern "APT_20250903_001" = true := by
  refine ⟨fun now confirmedCount => ?_, by decide, by decide⟩
  have hlen : 23 ≤ (generateAppointmentId now confirmedCount).length := by
    unfold generateAppointmentId
    rw [String.length_append, String.length_append, String.length_append]
    have h1 := strftimeTimestamp_length now
    have h2 : 3 ≤ (pyZfill 3 (Nat.repr (confirmedCount + 1))).length := by
      rw [pyZfill_length]; omega
    have ha : ("APT_" : String).length = 4 := rfl
    have hu : ("_" : String).length = 1 := rfl
    omega
  cases hb : matchesAppointmentIdPattern (generateAppointmentId now confirmedCount) with
  | false => rfl
  | true =>
    have h16 := matchesAppointmentIdPattern_length _ hb
    have hsame : (generateAppointmentId now confirmedCount).length =
        (generateAppointmentId now confirmedCount).data.length := rfl
    omega

/-- C10: for every 1-based slot index outside `1..length(available_slots)`
(including 0 and all negative indices), `book_appointment_slot` returns no
selected slot (with an error message) and the schedule table is left
completely unchanged. -/
theorem C10_invalid_index_leaves_schedule_unchanged (slotIndex : Int)
    (availableSlots : List AppointmentSlot) (patientType : String)
    (tbl : List ScheduleRow)
    (h : slotIndex < 1 ∨ (availableSlots.length : Int) < slotIndex) :
    bookAppointmentSlot slotIndex availableSlots patientType tbl = (none, tbl) := by
  have hc : (decide (slotIndex - 1 < 0) ||
      decide ((availableSlots.length : Int) ≤ slotIndex - 1)) = true := by
    simp only [Bool.or_eq_true, decide_eq_true_eq]
    omega
  unfold bookAppointmentSlot
  simp only [hc, if_true]

/-- C10 witness: index 0 against an empty slot list. -/
theorem C10_invalid_index_leaves_schedule_unchanged_witness :
    bookAppointmentSlot 0 [] "new" [] = (none, []) :=
  C10_invalid_index_leaves_schedule_unchanged 0 [] "new" [] (Or.inl (by decide))

/-- Failure of the consecutive-booking race check leaves the table
untouched. -/
theorem bookConsecutiveSlots_not_available (slot : AppointmentSlot)
    (tbl : List ScheduleRow)
    (h : tbl.any (fun r =>
      slotMask slot.doctor slot.location slot.date ((slot.time + 30) % 1440) r &&
        r.available) = false) :
    bookConsecutiveSlots slot tbl = (false, tbl) := by
  unfold bookConsecutiveSlots
  simp only [h]
  rfl

/-- The booking masks read only the key columns, which `markBooked` leaves
untouched. -/
theorem slotMask_markBooked (doctor location : String) (date t : Nat)
    (st : String) (r : ScheduleRow) :
    slotMask doctor location date t (markBooked st r) =
      slotMask doctor location date t r := rfl

theorem markBooked_markBooked (st : String) (r : ScheduleRow) :
    markBooked st (markBooked st r) = markBooked st r := rfl

/-- When the race check passes, consecutive booking marks exactly the rows
at the selected time and at the wrapped `+30min` time, leaving every other
row unchanged. -/
theorem bookConsecutiveSlots_available (slot : AppointmentSlot)
    (tbl : List ScheduleRow)
    (h : tbl.any (fun r =>
      slotMask slot.doctor slot.location slot.date ((slot.time + 30) % 1440) r &&
        r.available) = true) :
    bookConsecutiveSlots slot tbl =
      (true, tbl.map (fun r =>
        if slotMask slot.doctor slot.location slot.date slot.time r ||
            slotMask slot.doctor slot.location slot.date ((slot.time + 30) % 1440) r then
          markBooked "Fully Booked (Returning Patient)" r
        else r)) := by
  have hne1 : (("consecutive_first" : String) == "new") = false := by decide
  have hne2 : (("consecutive_second" : String) == "new") = false := by decide
  unfold bookConsecutiveSlots updateDoctorSchedule
  simp only [h, if_true, hne1, hne2, Bool.false_eq_true, if_false, List.map_map]
  refine congrArg (fun l => (true, l)) ?_
  apply List.map_congr_left
  intro r _
  simp only [Function.comp]
  by_cases h1 : slotMask slot.doctor slot.location slot.date slot.time r = true
  · by_cases h2 :
        slotMask slot.doctor slot.location slot.date ((slot.time + 30) % 1440) r = true
    · simp [h1, h2, slotMask_markBooked, markBooked_markBooked]
    · rw [Bool.not_eq_true] at h2
      simp [h1, h2, slotMask_markBooked]
  · rw [Bool.not_eq_true] at h1
    by_cases h2 :
        slotMask slot.doctor slot.location slot.date ((slot.time + 30) % 1440) r = true
    · simp [h1, h2, slotMask_markBooked]
    · rw [Bool.not_eq_true] at h2
      simp [h1, h2, slotMask_markBooked]

/-- C1 (amended): for a new-patient booking, with the follow-up slot time
computed modulo 24 hours (`strftime('%H:%M')` wraps past midnight): when
no available row sits at the wrapped `+30min` time for the same
doctor/location/date, booking fails with zero rows changed (and
`book_appointment_slot` returns no slot); when such a row is available,
both the chosen time's rows and the wrapped `+30min` rows are marked
`available = false` with `duration_available = 0`, and all other rows are
unchanged. -/
theorem C1_book_consecutive_atomic (slot : AppointmentSlot) (tbl : List ScheduleRow) :
    (tbl.any (fun r =>
        slotMask slot.doctor slot.location slot.date ((slot.time + 30) % 1440) r &&
          r.available) = false →
      bookConsecutiveSlots slot tbl = (false, tbl)) ∧
    (tbl.any (fun r =>
        slotMask slot.doctor slot.location slot.date ((slot.time + 30) % 1440) r &&
          r.available) = true →
      bookConsecutiveSlots slot tbl =
        (true, tbl.map (fun r =>
          if slotMask slot.doctor slot.location slot.date slot.time r ||
              slotMask slot.doctor slot.location slot.date ((slot.time + 30) % 1440) r then
            markBooked "Fully Booked (Returning Patient)" r
          else r))) ∧
    (∀ (availableSlots : List AppointmentSlot) (i : Nat),
      availableSlots.get? i = some slot →
      tbl.any (fun r =>
        slotMask slot.doctor slot.location slot.date ((slot.time + 30) % 1440) r &&
          r.available) = false →
      bookAppointmentSlot ((i : Int) + 1) availableSlots "new" tbl = (none, tbl)) := by
  refine ⟨bookConsecutiveSlots_not_available slot tbl,
    bookConsecutiveSlots_available slot tbl, ?_⟩
  intro availableSlots i hget hfalse
  have hlt : i < availableSlots.length := by
    by_contra hc
    rw [List.get?_eq_none.mpr (by omega)] at hget
    exact absurd hget (by simp)
  have hidx : (i : Int) + 1 - 1 = (i : Int) := by omega
  unfold bookAppointmentSlot
  rw [hidx]
  have hcond : (decide ((i : Int) < 0) ||
      decide ((availableSlots.length : Int) ≤ (i : Int))) = false := by
    simp only [Bool.or_eq_false_iff, decide_eq_false_iff_not]
    omega
  simp only [hcond, Bool.false_eq_true, if_false, Int.toNat_natCast, hget]
  have hnew : (("new" : String) == "new") = true := by decide
  simp only [hnew, if_true, bookConsecutiveSlots_not_available slot tbl hfalse]
  simp

/-- A schedule whose last two slots of day 40 are 23:45 (minute 1425) and
00:15 of the *same* date row (minute 15), both available. -/
def lateNightTable : List ScheduleRow :=
  [⟨"Dr. Naveen", "Gachibowli", 40, 1425, true, 30, "Available"⟩,
   ⟨"Dr. Naveen", "Gachibowli", 40, 15, true, 30, "Available"⟩]

def lateNightSlot : AppointmentSlot := ⟨"Dr. Naveen", "Gachibowli", 40, 1425, 30⟩

/-- C1 counterexample to the claim as stated: booking the 23:45 slot as a
new patient.  No row sits exactly 30 minutes after it (minute 1455) for
the same doctor/location/date, so the claim requires the booking to fail
with zero rows changed; but the code wraps the follow-up time to 00:15
and succeeds, modifying the table. -/
theorem C1_midnight_wrap_counterexample :
    (lateNightTable.any (fun r =>
      slotMask lateNightSlot.doctor lateNightSlot.location lateNightSlot.date
        (lateNightSlot.time + 30) r && r.available)) = false ∧
    (bookConsecutiveSlots lateNightSlot lateNightTable).1 = true ∧
    (bookConsecutiveSlots lateNightSlot lateNightTable).2 ≠ lateNightTable := by
  refine ⟨by decide, by decide, by decide⟩

/-- Two back-to-back 10:00/10:30 slots used to instantiate the booking
theorems away from midnight. -/
def morningTable : List ScheduleRow :=
  [⟨"Dr. Naveen", "Gachibowli", 10, 600, true, 30, "Available"⟩,
   ⟨"Dr. Naveen", "Gachibowli", 10, 630, true, 30, "Available"⟩]

def morningSlot : AppointmentSlot := ⟨"Dr. Naveen", "Gachibowli", 10, 600, 30⟩

/-- C1 witness: the amended theorem's success branch applied to the
concrete 10:00/10:30 pair. -/
theorem C1_book_consecutive_atomic_witness :
    bookConsecutiveSlots morningSlot morningTable =
      (true, morningTable.map (fun r =>
        if slotMask morningSlot.doctor morningSlot.location morningSlot.date
            morningSlot.time r ||
            slotMask morningSlot.doctor morningSlot.location morningSlot.date
              ((morningSlot.time + 30) % 1440) r then
          markBooked "Fully Booked (Returning Patient)" r
        else r)) :=
  (C1_book_consecutive_atomic morningSlot morningTable).2.1 (by decide)

/-- C2 (amended): every candidate returned by the 60-minute
consecutive-slot search has another row in the schedule for the same
doctor and location, available with `duration_available ≥ 30`, whose
combined date-and-time is exactly 30 minutes after the candidate's
combined date-and-time.  (The pair may span midnight into the next
calendar date; the same-date form of the claim is refuted below.) -/
theorem C2_consecutive_candidates_sound (tbl : List ScheduleRow)
    (doctor location : String) (c : ScheduleRow)
    (hc : c ∈ findConsecutiveSlots tbl doctor location) :
    ∃ r ∈ tbl, r.doctor = doctor ∧ r.location = location ∧ r.available = true ∧
      30 ≤ r.duration_available ∧ rowMinutes r = rowMinutes c + 30 := by
  unfold findConsecutiveSlots at hc
  dsimp only at hc
  rw [List.mem_filterMap] at hc
  obtain ⟨⟨a, b⟩, hmem, heq⟩ := hc
  by_cases hcond : ((rowMinutes b : Int) - (rowMinutes a : Int) == 30) = true
  · rw [if_pos hcond] at heq
    have hac : a = c := by injection heq
    subst hac
    have hab := List.of_mem_zip hmem
    have hbmem := List.mem_of_mem_tail hab.2
    rw [List.mem_insertionSort, List.mem_filter] at hbmem
    obtain ⟨hbt, hbp⟩ := hbmem
    simp only [Bool.and_eq_true, beq_iff_eq, decide_eq_true_eq] at hbp
    obtain ⟨⟨⟨hd, hl⟩, hav⟩, hdur⟩ := hbp
    refine ⟨b, hbt, hd, hl, hav, hdur, ?_⟩
    rw [beq_iff_eq] at hcond
    omega
  · rw [if_neg hcond] at heq
    exact absurd heq (by simp)

/-- A doctor's 23:45 slot on day 40 followed by the 00:15 slot of day 41:
exactly 30 minutes apart in wall-clock time, but on different dates. -/
def crossMidnightTable : List ScheduleRow :=
  [⟨"Dr. Naveen", "Gachibowli", 40, 1425, true, 30, "Available"⟩,
   ⟨"Dr. Naveen", "Gachibowli", 41, 15, true, 30, "Available"⟩]

/-- C2 counterexample to the claim as stated: the 23:45 slot is returned
as a 60-minute candidate (its successor is 30 minutes later across
midnight), yet no row of the table shares its date with a start time 30
minutes after it. -/
theorem C2_cross_midnight_counterexample :
    (⟨"Dr. Naveen", "Gachibowli", 40, 1425, true, 30, "Available"⟩ : ScheduleRow) ∈
      findConsecutiveSlots crossMidnightTable "Dr. Naveen" "Gachibowli" ∧
    ¬ ∃ r ∈ crossMidnightTable,
        r.doctor = "Dr. Naveen" ∧ r.location = "Gachibowli" ∧ r.date = 40 ∧
          r.time = 1425 + 30 ∧ r.available = true := by
  refine ⟨by decide, by decide⟩

/-- C2 witness: the amended soundness theorem applied to the concrete
10:00 candidate of `morningTable`. -/
theorem C2_consecutive_candidates_sound_witness :
    ∃ r ∈ morningTable, r.doctor = "Dr. Naveen" ∧ r.location = "Gachibowli" ∧
      r.available = true ∧ 30 ≤ r.duration_available ∧
      rowMinutes r =
        rowMinutes (⟨"Dr. Naveen", "Gachibowli", 10, 600, true, 30, "Available"⟩ : ScheduleRow) + 30 :=
  C2_consecutive_candidates_sound morningTable "Dr. Naveen" "Gachibowli"
    ⟨"Dr. Naveen", "Gachibowli", 10, 600, true, 30, "Available"⟩ (by decide)

/-- C3 (amended): against a NON-EMPTY directory (an empty one is rejected
by the database-unavailable guard before any lookup), a lookup with
nonempty name containing at least one whitespace-separated word (a truthy
whitespace-only name makes `_handle_new_patient` raise an uncaught
`IndexError` and append nothing) and a nonempty DOB matching no row
appends exactly one new row and returns `patient_type = "new"` with
`appointment_duration = 60`; the generated id is `PAT_` followed by the
zero-padded (to at least 3 digits, exactly 3 while the number stays
≤ 999) successor of the maximum numeric suffix of the existing `PAT_*`
ids — strictly greater than every such suffix — and the number is 1 (not
row count + 1) when no numeric-suffix id exists. -/
theorem C3_new_patient_registration (df : List PatientRow) (input : LookupInput)
    (todayStr : String)
    (hne : df.isEmpty = false)
    (hname : pyLower input.patient_name ≠ "")
    (hwords : pySplitWs input.patient_name ≠ [])
    (hdob : input.date_of_birth ≠ "")
    (hmiss : findPatientByNameAndDob df (pyLower input.patient_name)
      input.date_of_birth = none) :
    ∃ r newRow,
      newPatientRow input todayStr df = .ok newRow ∧
      searchPatient df input todayStr = .ok (some r, df ++ [newRow]) ∧
      r.patient_type = "new" ∧ r.appointment_duration = 60 ∧
      newRow.patient_id = r.patient_id ∧
      r.patient_id = "PAT_" ++ padNum 3 (nextPatientNumber df) ∧
      (∀ k ∈ existingPatientNumbers df, k < nextPatientNumber df) ∧
      (existingPatientNumbers df = [] → nextPatientNumber df = 1) ∧
      3 ≤ (padNum 3 (nextPatientNumber df)).length ∧
      (nextPatientNumber df ≤ 999 → (padNum 3 (nextPatientNumber df)).length = 3) := by
  have hguard : ((pyLower input.patient_name == "") ||
      (input.date_of_birth == "")) = false := by
    simp only [Bool.or_eq_false_iff, beq_eq_false_iff_ne, ne_eq]
    exact ⟨hname, hdob⟩
  have hrow : newPatientRow input todayStr df = .ok
      { patient_id := generateNextPatientId df
        first_name := if input.patient_name ≠ "" then
            (pySplitWs input.patient_name).headD "" else ""
        last_name := if 1 < (pySplitWs input.patient_name).length then
            pyJoin " " (pySplitWs input.patient_name).tail else ""
        dob := input.date_of_birth
        last_visit := todayStr
        insurance_carrier := ""
        member_id := ""
        group_number := "" } := by
    unfold newPatientRow
    rw [if_neg (fun hc => hwords hc.2)]
  refine ⟨⟨generateNextPatientId df, "new", 60, none, none⟩,
    { patient_id := generateNextPatientId df
      first_name := if input.patient_name ≠ "" then
          (pySplitWs input.patient_name).headD "" else ""
      last_name := if 1 < (pySplitWs input.patient_name).length then
          pyJoin " " (pySplitWs input.patient_name).tail else ""
      dob := input.date_of_birth
      last_visit := todayStr
      insurance_carrier := ""
      member_id := ""
      group_number := "" },
    hrow, ?_, rfl, rfl, rfl, rfl, ?_, ?_, padNum_length_ge 3 _, ?_⟩
  · unfold searchPatient
    simp only [hne, Bool.false_eq_true, if_false]
    simp only [hguard, Bool.false_eq_true, if_false, hmiss]
    unfold handleNewPatient
    rw [hrow]
    rfl
  · intro k hk
    have hnil : existingPatientNumbers df ≠ [] := List.ne_nil_of_mem hk
    unfold nextPatientNumber
    rw [if_neg (by simp [List.isEmpty_iff, hnil])]
    have := le_foldl_max (existingPatientNumbers df) 0 k hk
    omega
  · intro h0
    unfold nextPatientNumber
    rw [h0]
    rfl
  · intro hle
    exact padNum_length_eq_of_le 3 _ (Nat.repr_length _ 3 (by omega) (by omega))

/-- A directory whose patient ids carry no `PAT_` numeric suffix. -/
def nonNumericDirectory : List PatientRow :=
  [⟨"EMR-1", "Ana", "Diaz", "01/01/1990", "2024-01-01", "", "", ""⟩,
   ⟨"EMR-2", "Bob", "Cruz", "02/02/1991", "2024-02-02", "", "", ""⟩]

/-- C3 counterexample to the claim as stated: with two rows and no
numeric ids, the claim's fallback demands the new id encode
row count + 1 = 3 (`PAT_003`), but the code generates `PAT_001` (the
`len(df) + 1` fallback of the source lives in an `except` handler the
scan never triggers). -/
theorem C3_rowcount_fallback_counterexample :
    ((searchPatient nonNumericDirectory ⟨"Jane Doe", "05/15/1995"⟩ "2025-09-03").map
       (fun p => p.1.map (fun r => r.patient_id))) = .ok (some "PAT_001") ∧
    nonNumericDirectory.length + 1 = 3 ∧
    ("PAT_001" : String) ≠ "PAT_" ++ padNum 3 (nonNumericDirectory.length + 1) := by
  refine ⟨by decide, by decide, by decide⟩

/-- The raising path of `_handle_new_patient`, checked concretely: a
truthy whitespace-only name passes the `if not patient_name` guard,
misses the directory (the DOB differs), and the record construction's
`split()[0]` raises an uncaught `IndexError` — no row is appended and no
result returned. -/
theorem searchPatient_whitespace_name_indexerror :
    searchPatient sampleDirectory ⟨" ", "05/15/1995"⟩ "2025-09-03" =
      .error "IndexError" := by
  decide

/-- C3 witness: the amended theorem applied to a miss against
`sampleDirectory` (one row, id `PAT_007`, so the new id is `PAT_008`). -/
theorem C3_new_patient_registration_witness :
    ∃ r newRow,
      newPatientRow ⟨"Jane Doe", "05/15/1995"⟩ "2025-09-03" sampleDirectory =
        .ok newRow ∧
      searchPatient sampleDirectory ⟨"Jane Doe", "05/15/1995"⟩ "2025-09-03" =
        .ok (some r, sampleDirectory ++ [newRow]) ∧
      r.patient_type = "new" ∧ r.appointment_duration = 60 ∧
      newRow.patient_id = r.patient_id ∧
      r.patient_id = "PAT_" ++ padNum 3 (nextPatientNumber sampleDirectory) ∧
      (∀ k ∈ existingPatientNumbers sampleDirectory,
        k < nextPatientNumber sampleDirectory) ∧
      (existingPatientNumbers sampleDirectory = [] →
        nextPatientNumber sampleDirectory = 1) ∧
      3 ≤ (padNum 3 (nextPatientNumber sampleDirectory)).length ∧
      (nextPatientNumber sampleDirectory ≤ 999 →
        (padNum 3 (nextPatientNumber sampleDirectory)).length = 3) :=
  C3_new_patient_registration sampleDirectory ⟨"Jane Doe", "05/15/1995"⟩ "2025-09-03"
    (by decide) (by decide) (by decide) (by decide) (by decide)

/-- The future/age checks never alter the chosen (month, day, year). -/
theorem dobConstructChecks_ok (today : Ymd) (y0 m0 d0 m d y : Nat) (age : Int)
    (h : dobConstructChecks today y0 m0 d0 = .ok (m, d, y, age)) :
    m = m0 ∧ d = d0 ∧ y = y0 := by
  unfold dobConstructChecks at h
  split at h
  · exact absurd h (by simp)
  · split at h <;>
    · dsimp only at h
      split at h
      · exact absurd h (by simp)
      · simp only [Except.ok.injEq, Prod.mk.injEq] at h
        exact ⟨h.1.symm, h.2.1.symm, h.2.2.1.symm⟩

theorem daysInMonth_bounds (y m : Nat) : 28 ≤ daysInMonth y m ∧ daysInMonth y m ≤ 31 := by
  unfold daysInMonth
  split
  · split <;> omega
  · split <;> omega

theorem pyDateValid_bounds (y m d : Nat) (h : pyDateValid y m d = true) :
    1 ≤ y ∧ y ≤ 9999 ∧ 1 ≤ m ∧ m ≤ 12 ∧ 1 ≤ d ∧ d ≤ daysInMonth y m := by
  unfold pyDateValid at h
  simp only [Bool.and_eq_true, decide_eq_true_eq] at h
  tauto

/-- When both components are at most 12, validity of one interpretation
gives validity of the swapped one (every month has at least 12 days). -/
theorem pyDateValid_swap (y m d : Nat) (hm : m ≤ 12) (h : pyDateValid y d m = true) :
    pyDateValid y m d = true := by
  obtain ⟨h1, h2, h3, h4, h5, h6⟩ := pyDateValid_bounds y d m h
  have hd1 := (daysInMonth_bounds y d).2
  have hd2 := (daysInMonth_bounds y m).1
  unfold pyDateValid
  simp only [Bool.and_eq_true, decide_eq_true_eq]
  omega

/-- Exhaustive case analysis of the DOB interpretation core: an accepted
date keeps the year, is a valid calendar date, and is either the
month-first reading, or the day-first reading taken only because
month-first was invalid or out of range. -/
theorem validateDobCore_cases (today : Ymd) (p0 p1 p2 m d y : Nat) (age : Int)
    (h : validateDobCore today p0 p1 p2 = .ok (m, d, y, age)) :
    y = p2 ∧ pyDateValid p2 m d = true ∧
      ((m = p0 ∧ d = p1) ∨
        (m = p1 ∧ d = p0 ∧
          (pyDateValid p2 p0 p1 = false ∨ ¬(p0 ≤ 12 ∧ p1 ≤ 31)))) := by
  unfold validateDobCore at h
  dsimp only at h
  by_cases hc1 : (decide (p0 ≤ 12) && decide (p1 ≤ 31)) = true
  · rw [if_pos hc1] at h
    by_cases hv1 : pyDateValid p2 p0 p1 = true
    · rw [if_pos hv1] at h
      obtain ⟨hm, hd, hy⟩ := dobConstructChecks_ok today p2 p0 p1 m d y age h
      subst hm; subst hd; subst hy
      exact ⟨rfl, hv1, Or.inl ⟨rfl, rfl⟩⟩
    · rw [if_neg hv1] at h
      by_cases hc2 : (decide (p1 ≤ 12) && decide (p0 ≤ 31)) = true
      · rw [if_pos hc2] at h
        by_cases hv2 : pyDateValid p2 p1 p0 = true
        · rw [if_pos hv2] at h
          obtain ⟨hm, hd, hy⟩ := dobConstructChecks_ok today p2 p1 p0 m d y age h
          subst hm; subst hd; subst hy
          rw [Bool.not_eq_true] at hv1
          exact ⟨rfl, hv2, Or.inr ⟨rfl, rfl, Or.inl hv1⟩⟩
        · rw [if_neg hv2] at h
          exact absurd h (by simp)
      · rw [if_neg hc2] at h
        exact absurd h (by simp)
  · rw [if_neg hc1] at h
    by_cases hc2 : (decide (p1 ≤ 12) && decide (p0 ≤ 31)) = true
    · rw [if_pos hc2] at h
      by_cases hv2 : pyDateValid p2 p1 p0 = true
      · rw [if_pos hv2] at h
        have hnot : ¬(p0 ≤ 12 ∧ p1 ≤ 31) := by
          intro hcontra
          exact hc1 (by simp only [Bool.and_eq_true, decide_eq_true_eq]; exact hcontra)
        obtain ⟨hm, hd, hy⟩ := dobConstructChecks_ok today p2 p1 p0 m d y age h
        subst hm; subst hd; subst hy
        exact ⟨rfl, hv2, Or.inr ⟨rfl, rfl, Or.inr hnot⟩⟩
      · rw [if_neg hv2] at h
        rw [if_pos hc2] at h
        rw [if_neg hv2] at h
        exact absurd h (by simp)
    · rw [if_neg hc2] at h
      by_cases hv1 : pyDateValid p2 p0 p1 = true
      · rw [if_pos hv1] at h
        obtain ⟨hm, hd, hy⟩ := dobConstructChecks_ok today p2 p0 p1 m d y age h
        subst hm; subst hd; subst hy
        exact ⟨rfl, hv1, Or.inl ⟨rfl, rfl⟩⟩
      · rw [if_neg hv1] at h
        rw [if_neg hc2] at h
        exact absurd h (by simp)

/-- C4: DOB disambiguation.  (1) When both components are at most 12 (the
ambiguous case) an accepted date is read month-first; (2) when the first
component exceeds 12 an accepted date is read day-first; (3) when the
month-first reading is not a constructible date an accepted date is read
day-first; (4) `"20/06/2004"` is accepted as June 20 2004 and
(5) `"06/20/2004"` stays month-first (both at `today` = 2026-10-12); and
(6) every accepted value is rendered `MM/DD/YYYY` via
`f"{month:02d}/{day:02d}/{year}"` from a valid calendar date. -/
theorem C4_dob_disambiguation :
    (∀ (today : Ymd) (p0 p1 p2 m d y : Nat) (age : Int),
      validateDobCore today p0 p1 p2 = .ok (m, d, y, age) →
      p0 ≤ 12 → p1 ≤ 12 → m = p0 ∧ d = p1 ∧ y = p2) ∧
    (∀ (today : Ymd) (p0 p1 p2 m d y : Nat) (age : Int),
      validateDobCore today p0 p1 p2 = .ok (m, d, y, age) →
      12 < p0 → m = p1 ∧ d = p0 ∧ y = p2) ∧
    (∀ (today : Ymd) (p0 p1 p2 m d y : Nat) (age : Int),
      validateDobCore today p0 p1 p2 = .ok (m, d, y, age) →
      pyDateValid p2 p0 p1 = false → m = p1 ∧ d = p0 ∧ y = p2) ∧
    greetingValidateDob ⟨2026, 10, 12⟩ "20/06/2004" =
      .ok ("06/20/2004",
        "✅ Got it! Your date of birth is **06/20/2004** (you're 22 years old).") ∧
    greetingValidateDob ⟨2026, 10, 12⟩ "06/20/2004" =
      .ok ("06/20/2004",
        "✅ Got it! Your date of birth is **06/20/2004** (you're 22 years old).") ∧
    (∀ (today : Ymd) (s v msg : String),
      greetingValidateDob today s = .ok (v, msg) →
      ∃ m d y, pyDateValid y m d = true ∧ v = renderDob m d y) := by
  refine ⟨?_, ?_, ?_, by decide, by decide, ?_⟩
  · intro today p0 p1 p2 m d y age h h0 h1
    obtain ⟨hy, hvalid, hopt⟩ := validateDobCore_cases today p0 p1 p2 m d y age h
    cases hopt with
    | inl ho => exact ⟨ho.1, ho.2, hy⟩
    | inr ho =>
      obtain ⟨hm, hd, hreason⟩ := ho
      cases hreason with
      | inl hv1false =>
        rw [hm, hd] at hvalid
        have hsw : pyDateValid p2 p0 p1 = true := pyDateValid_swap p2 p0 p1 h0 hvalid
        rw [hsw] at hv1false
        exact absurd hv1false (by simp)
      | inr hnot => exact absurd ⟨h0, by omega⟩ hnot
  · intro today p0 p1 p2 m d y age h h12
    obtain ⟨hy, hvalid, hopt⟩ := validateDobCore_cases today p0 p1 p2 m d y age h
    cases hopt with
    | inl ho =>
      obtain ⟨hm, hd⟩ := ho
      subst hm; subst hd
      have := (pyDateValid_bounds p2 m d hvalid).2.2.2.1
      omega
    | inr ho => exact ⟨ho.1, ho.2.1, hy⟩
  · intro today p0 p1 p2 m d y age h hv1false
    obtain ⟨hy, hvalid, hopt⟩ := validateDobCore_cases today p0 p1 p2 m d y age h
    cases hopt with
    | inl ho =>
      obtain ⟨hm, hd⟩ := ho
      subst hm; subst hd
      rw [hvalid] at hv1false
      exact absurd hv1false (by simp)
    | inr ho => exact ⟨ho.1, ho.2.1, hy⟩
  · intro today s v msg h
    unfold greetingValidateDob at h
    split at h
    · exact absurd h (by simp)
    case h_2 p0 p1 p2 heq =>
      split at h
      · exact absurd h (by simp)
      case h_2 m d y age heq2 =>
        simp only [Except.ok.injEq, Prod.mk.injEq] at h
        obtain ⟨hy, hvalid, _⟩ := validateDobCore_cases today p0 p1 p2 m d y age heq2
        rw [← hy] at hvalid
        exact ⟨m, d, y, hvalid, h.1.symm⟩

/-- C4 witness: the ambiguous-case clause applied to `05/06/2004`,
accepted month-first as May 6, 2004. -/
theorem C4_dob_disambiguation_witness :
    5 = 5 ∧ 6 = 6 ∧ 2004 = 2004 :=
  C4_dob_disambiguation.1 ⟨2026, 10, 12⟩ 5 6 2004 5 6 2004 22 (by decide)
    (by decide) (by decide)

/-- C8: for both step collectors (patient intake and insurance intake),
`None`, empty, or whitespace-only input returns the "didn't catch that"
re-prompt with `is_complete = False` and no data, leaving the state
exactly as it was (and never raising — the result is `.ok`, the
`IndexError` branch is unreachable from the guard); and on a validation
failure of the current field the error is re-emitted with
`is_complete = False`, the field index does not advance and the collected
data is unchanged (the greeting collector only appends the turn to its
conversation history). -/
theorem C8_collector_guards :
    (∀ (today : Ymd) (st : GreetingState) (inp : Option String),
      (inp = none ∨ ∃ raw, inp = some raw ∧ pyStrip raw = "") →
      greetingProcessInput today inp st =
        .ok ({ message := didNotCatchMessage, isComplete := false, data := none }, st)) ∧
    (∀ (today : Ymd) (st : GreetingState) (raw fieldName emsg : String),
      pyStrip raw ≠ "" →
      greetingFields.get? st.currentField = some fieldName →
      greetingProcessCurrentField today fieldName (pyStrip raw) = .error emsg →
      greetingProcessInput today (some raw) st =
        .ok ({ message := emsg, isComplete := false, data := none },
          { st with conversationHistory :=
              st.conversationHistory ++ ["Patient: " ++ pyStrip raw] })) ∧
    (∀ (st : CollectorState) (inp : Option String),
      (inp = none ∨ ∃ raw, inp = some raw ∧ pyStrip raw = "") →
      insuranceProcessInput inp st =
        .ok ({ message := didNotCatchMessage, isComplete := false, data := none }, st)) ∧
    (∀ (st : CollectorState) (raw fieldName emsg : String),
      pyStrip raw ≠ "" →
      insuranceFields.get? st.currentFieldIndex = some fieldName →
      insuranceCollectField fieldName (pyStrip raw) = .error emsg →
      insuranceProcessInput (some raw) st =
        .ok ({ message := emsg, isComplete := false, data := none }, st)) := by
  refine ⟨?_, ?_, ?_, ?_⟩
  · intro today st inp h
    rcases h with hnone | ⟨raw, hsome, hempty⟩
    · subst hnone; rfl
    · subst hsome
      simp [greetingProcessInput, hempty]
  · intro today st raw fieldName emsg hne hget hfail
    have hc : (pyStrip raw == "") = false := beq_eq_false_iff_ne.mpr hne
    simp only [greetingProcessInput, hc, Bool.false_eq_true, if_false, hget, hfail]
  · intro st inp h
    rcases h with hnone | ⟨raw, hsome, hempty⟩
    · subst hnone; rfl
    · subst hsome
      simp [insuranceProcessInput, hempty]
  · intro st raw fieldName emsg hne hget hfail
    have hc : (pyStrip raw == "") = false := beq_eq_false_iff_ne.mpr hne
    simp only [insuranceProcessInput, hc, Bool.false_eq_true, if_false, hget, hfail]

/-- C8 witness: a one-word name fails validation at field 0 and leaves
index and collected data untouched. -/
theorem C8_collector_guards_witness :
    greetingProcessInput ⟨2026, 10, 12⟩ (some "Shreyansh") ⟨0, [], []⟩ =
      .ok ({ message := "Please provide both your first and last name."
             isComplete := false
             data := none },
        { currentField := 0, collectedData := []
          conversationHistory := ["Patient: Shreyansh"] }) :=
  C8_collector_guards.2.1 ⟨2026, 10, 12⟩ ⟨0, [], []⟩ "Shreyansh" "patient_name"
    "Please provide both your first and last name." (by decide) (by decide) (by decide)
